import Mathlib

/-!
Shallow embedding of the eden repository's Sign-in-with-Apple schemas
(src/eden/auth/schemas.py) and settings (src/eden/auth/settings.py).

Pydantic models are embedded as Lean structures; parsing a model from raw
input is an explicit function returning Option/Except, mirroring the
validators the source declares (and only those).  Python datetimes are
embedded as integer timestamps; JSON objects as association lists.
-/

namespace Eden

/-- Keys (schemas.py): a single JSON Web Key.  All six fields are plain
strings in the source; no validator constrains any of them. -/
structure Keys where
  alg : String
  e : String
  kid : String
  kty : String
  n : String
  use : String
deriving DecidableEq, Repr

/-- Parsing a Keys model from its six raw string fields.  The source
declares no field validator, so parsing always succeeds. -/
def Keys.parse (alg e kid kty n use : String) : Option Keys :=
  some { alg := alg, e := e, kid := kid, kty := kty, n := n, use := use }

/-- JWKSet (schemas.py): a set of JSON Web Key objects, stored as a list. -/
structure JWKSet where
  keys : List Keys
deriving DecidableEq, Repr

/-- Parsing a JWKSet from a raw list of keys.  The source declares no
validator on the list (in particular none about kid uniqueness), so any
list of well-formed keys is accepted. -/
def JWKSet.parse (ks : List Keys) : Option JWKSet :=
  some { keys := ks }

/-- ASUserDetectionStatusEnum (schemas.py): IntEnum with values 0, 1, 2. -/
inductive ASUserDetectionStatusEnum where
  | UNSUPPORTED
  | UNKNOWN
  | LIKELY_REAL
deriving DecidableEq, Repr

/-- Conversion of a raw integer to the IntEnum, as pydantic validates a
raw int against the enum's values: anything outside 0, 1, 2 is rejected. -/
def ASUserDetectionStatusEnum.ofInt : Int → Option ASUserDetectionStatusEnum
  | 0 => some .UNSUPPORTED
  | 1 => some .UNKNOWN
  | 2 => some .LIKELY_REAL
  | _ => none

/-- A raw value that is either a string or a boolean, the inputs the
union type bool | str can hold after JSON decoding. -/
inductive StrBool where
  | str (s : String)
  | bool (b : Bool)
deriving DecidableEq, Repr

/-- IdentityToken (schemas.py): the validated claim set.  The
email_verified / is_private_email fields keep the source's declared union
type bool | str | None, embedded as Option StrBool. -/
structure IdentityToken where
  iss : String
  sub : String
  aud : String
  iat : Int
  exp : Int
  nonce : Option String := none
  nonce_supported : Option Bool := none
  email : Option String := none
  email_verified : Option StrBool := none
  is_private_email : Option StrBool := none
  real_user_status : Option ASUserDetectionStatusEnum := none
  transfer_sub : Option String := none
deriving DecidableEq, Repr

/-- Raw input to IdentityToken parsing: the five required fields plus the
optional fields, each absent by default (pydantic default None).
real_user_status arrives as a raw integer.  The EmailStr format check on
email is not modelled: no claim depends on it and it never rejects an
absent email. -/
structure IdentityTokenInput where
  iss : String
  sub : String
  aud : String
  iat : Int
  exp : Int
  nonce : Option String := none
  nonce_supported : Option Bool := none
  email : Option String := none
  email_verified : Option StrBool := none
  is_private_email : Option StrBool := none
  real_user_status : Option Int := none
  transfer_sub : Option String := none
deriving DecidableEq, Repr

/-- Lower-casing of a string character by character, embedding Python's
str.lower; the source only ever compares the result with the ASCII
literal "true", for which per-character ASCII lower-casing coincides with
Python's. -/
def lowerAscii (s : String) : String :=
  ⟨s.data.map Char.toLower⟩

/-- IdentityToken.str_to_bool (schemas.py lines 83-87), the mode-before
field validator on email_verified and is_private_email: a string value
becomes the boolean (value.lower() == "true"); any non-string value is
returned unchanged. -/
def IdentityToken.str_to_bool : StrBool → StrBool
  | .str s => .bool (lowerAscii s == "true")
  | v => v

/-- Parsing an IdentityToken from raw input: str_to_bool is applied to
email_verified and is_private_email before type validation, and the raw
real_user_status integer is validated against the IntEnum.  The source
declares no other validator; in particular nothing relates iat and exp. -/
def IdentityToken.parse (i : IdentityTokenInput) : Option IdentityToken :=
  match i.real_user_status with
  | some r =>
    match ASUserDetectionStatusEnum.ofInt r with
    | some status =>
      some { iss := i.iss, sub := i.sub, aud := i.aud, iat := i.iat, exp := i.exp,
             nonce := i.nonce, nonce_supported := i.nonce_supported, email := i.email,
             email_verified := i.email_verified.map IdentityToken.str_to_bool,
             is_private_email := i.is_private_email.map IdentityToken.str_to_bool,
             real_user_status := some status, transfer_sub := i.transfer_sub }
    | none => none
  | none =>
      some { iss := i.iss, sub := i.sub, aud := i.aud, iat := i.iat, exp := i.exp,
             nonce := i.nonce, nonce_supported := i.nonce_supported, email := i.email,
             email_verified := i.email_verified.map IdentityToken.str_to_bool,
             is_private_email := i.is_private_email.map IdentityToken.str_to_bool,
             real_user_status := none, transfer_sub := i.transfer_sub }

/-- A JSON scalar as it appears in the token-exchange response fields:
a string or an integer. -/
inductive JsonVal where
  | str (s : String)
  | int (n : Int)
deriving DecidableEq, Repr

/-- TokenResponse (schemas.py): the successful token-exchange response.
token_type is declared Literal["bearer"] in the source; it is embedded as
a String whose parse accepts exactly "bearer". -/
structure TokenResponse where
  access_token : String
  expires_in : Int
  id_token : String
  refresh_token : String
  token_type : String
deriving DecidableEq, Repr

/-- Serialization of a TokenResponse to a JSON object (association list),
as pydantic model_dump_json emits the five declared fields. -/
def TokenResponse.toJson (t : TokenResponse) : List (String × JsonVal) :=
  [("access_token", .str t.access_token),
   ("expires_in", .int t.expires_in),
   ("id_token", .str t.id_token),
   ("refresh_token", .str t.refresh_token),
   ("token_type", .str t.token_type)]

/-- Parsing a TokenResponse from a JSON object: each declared field must
be present with the declared type, and token_type must be the literal
"bearer" (Literal["bearer"] in the source). -/
def TokenResponse.parse (j : List (String × JsonVal)) : Option TokenResponse :=
  match j.lookup "access_token", j.lookup "expires_in", j.lookup "id_token",
        j.lookup "refresh_token", j.lookup "token_type" with
  | some (.str a), some (.int e), some (.str i), some (.str r), some (.str tt) =>
      if tt = "bearer" then
        some { access_token := a, expires_in := e, id_token := i,
               refresh_token := r, token_type := tt }
      else none
  | _, _, _, _, _ => none

/-- ErrorType (schemas.py): the closed string enumeration of error values. -/
inductive ErrorType where
  | INVALID_REQUEST
  | INVALID_CLIENT
  | INVALID_GRANT
  | UNAUTHORIZED_CLIENT
  | UNSUPPORTED_GRANT_TYPE
  | INVALID_SCOPE
deriving DecidableEq, Repr

/-- Validation of a raw string against the ErrorType enumeration, as
pydantic matches a raw value against the enum members' values; any other
string is rejected. -/
def ErrorType.ofString : String → Option ErrorType
  | "invalid_request" => some .INVALID_REQUEST
  | "invalid_client" => some .INVALID_CLIENT
  | "invalid_grant" => some .INVALID_GRANT
  | "unauthorized_client" => some .UNAUTHORIZED_CLIENT
  | "unsupported_grant_type" => some .UNSUPPORTED_GRANT_TYPE
  | "invalid_scope" => some .INVALID_SCOPE
  | _ => none

/-- ErrorResponse (schemas.py): error is an ErrorType; the description and
uri fields are optional with default None. -/
structure ErrorResponse where
  error : ErrorType
  error_description : Option String := none
  error_uri : Option String := none
deriving DecidableEq, Repr

/-- Parsing an ErrorResponse from its raw fields: the error string must
validate against the ErrorType enumeration; the optional fields pass
through. -/
def ErrorResponse.parse (error : String) (error_description error_uri : Option String) :
    Option ErrorResponse :=
  match ErrorType.ofString error with
  | some et => some { error := et, error_description := error_description,
                      error_uri := error_uri }
  | none => none

/-- AppleSignInConfig (settings.py): settings read from the environment
with env var names derived from the "SIWA_" prefix. -/
structure AppleSignInConfig where
  client_id : String
  team_id : String
  key_id : String
  private_key : String
  redirect_uri : String
  scope : String := "email name"
  response_mode : String := "form_post"
  response_type : String := "code id_token"
  state : Option String := none
deriving DecidableEq, Repr

/-- The required fields (those of settings.py with no default) whose
prefixed environment variable is absent from the given environment, in
declaration order; pydantic-settings reports every missing field by name. -/
def AppleSignInConfig.missingRequired (env : List (String × String)) : List String :=
  (if (env.lookup "SIWA_CLIENT_ID").isNone then ["client_id"] else []) ++
  (if (env.lookup "SIWA_TEAM_ID").isNone then ["team_id"] else []) ++
  (if (env.lookup "SIWA_KEY_ID").isNone then ["key_id"] else []) ++
  (if (env.lookup "SIWA_PRIVATE_KEY").isNone then ["private_key"] else []) ++
  (if (env.lookup "SIWA_REDIRECT_URI").isNone then ["redirect_uri"] else [])

/-- Loading AppleSignInConfig from an environment (association list from
env var name to value): each field is read from its prefixed entry; a str
field accepts any string the entry holds, including the empty string; if
any required entry is absent the load fails with the list of missing field
names; the defaults of settings.py apply to absent optional entries. -/
def AppleSignInConfig.load (env : List (String × String)) :
    Except (List String) AppleSignInConfig :=
  match env.lookup "SIWA_CLIENT_ID", env.lookup "SIWA_TEAM_ID", env.lookup "SIWA_KEY_ID",
        env.lookup "SIWA_PRIVATE_KEY", env.lookup "SIWA_REDIRECT_URI" with
  | some ci, some ti, some ki, some pk, some ru =>
      .ok { client_id := ci, team_id := ti, key_id := ki, private_key := pk,
            redirect_uri := ru,
            scope := (env.lookup "SIWA_SCOPE").getD "email name",
            response_mode := (env.lookup "SIWA_RESPONSE_MODE").getD "form_post",
            response_type := (env.lookup "SIWA_RESPONSE_TYPE").getD "code id_token",
            state := env.lookup "SIWA_STATE" }
  | _, _, _, _, _ => .error (AppleSignInConfig.missingRequired env)

/-! ## Helper lemmas -/

/-- The image of any optional raw value under str_to_bool is either absent
or a boolean, never a string. -/
theorem map_str_to_bool_not_str (o : Option StrBool) :
    o.map IdentityToken.str_to_bool = none ∨
      ∃ b, o.map IdentityToken.str_to_bool = some (.bool b) := by
  rcases o with _ | v
  · exact Or.inl rfl
  · rcases v with s | b
    · exact Or.inr ⟨lowerAscii s == "true", rfl⟩
    · exact Or.inr ⟨b, rfl⟩

/-- ErrorType.ofString succeeds exactly on the six enumerated strings. -/
theorem ErrorType.ofString_isSome_iff (s : String) :
    (ErrorType.ofString s).isSome = true ↔
      (s = "invalid_request" ∨ s = "invalid_client" ∨ s = "invalid_grant" ∨
       s = "unauthorized_client" ∨ s = "unsupported_grant_type" ∨ s = "invalid_scope") := by
  unfold ErrorType.ofString
  split <;> simp_all

/-! ## Claims -/

/-- C1 (amended): for the email_verified / is_private_email validator
str_to_bool, any string input normalizes to the boolean result of
comparing its lower-cased form with "true" — so "true"/"TRUE"/"True"
normalize to true, "false"/"FALSE" normalize to false, and every other
string normalizes to false rather than being rejected — while a native
boolean passes through unchanged. -/
theorem str_to_bool_normalization (s : String) (b : Bool) :
    IdentityToken.str_to_bool (.str s) = .bool (lowerAscii s == "true")
    ∧ IdentityToken.str_to_bool (.bool b) = .bool b
    ∧ IdentityToken.str_to_bool (.str "true") = .bool true
    ∧ IdentityToken.str_to_bool (.str "TRUE") = .bool true
    ∧ IdentityToken.str_to_bool (.str "True") = .bool true
    ∧ IdentityToken.str_to_bool (.str "false") = .bool false
    ∧ IdentityToken.str_to_bool (.str "FALSE") = .bool false := by
  refine ⟨rfl, rfl, ?_, ?_, ?_, ?_, ?_⟩ <;> decide

/-- C1 (counterexample): the claim says a string other than a case
variant of "true"/"false" is rejected, but the validator maps the string
"banana" to boolean false and IdentityToken parsing succeeds on it. -/
theorem str_to_bool_accepts_unknown_string :
    IdentityToken.str_to_bool (.str "banana") = .bool false
    ∧ (IdentityToken.parse
        { iss := "https://appleid.apple.com", sub := "u1", aud := "com.example.app",
          iat := 0, exp := 3600,
          email_verified := some (.str "banana") }).isSome = true := by
  refine ⟨?_, ?_⟩ <;> decide

/-- C2: parsing an ErrorResponse succeeds exactly when the raw error
string is one of the six enumerated values; every other string fails. -/
theorem errorResponse_closed_enumeration (s : String) (d u : Option String) :
    (ErrorResponse.parse s d u).isSome = true ↔
      (s = "invalid_request" ∨ s = "invalid_client" ∨ s = "invalid_grant" ∨
       s = "unauthorized_client" ∨ s = "unsupported_grant_type" ∨ s = "invalid_scope") := by
  rw [← ErrorType.ofString_isSome_iff]
  unfold ErrorResponse.parse
  cases ErrorType.ofString s <;> simp

/-- C3: a TokenResponse whose token_type is the literal "bearer" (the
only value pydantic's Literal type admits) serializes to JSON and parses
back to a field-for-field equal value, and every successfully parsed
TokenResponse has token_type equal to "bearer". -/
theorem tokenResponse_roundtrip (t : TokenResponse) (j : List (String × JsonVal))
    (t2 : TokenResponse) :
    (t.token_type = "bearer" → TokenResponse.parse (TokenResponse.toJson t) = some t)
    ∧ (TokenResponse.parse j = some t2 → t2.token_type = "bearer") := by
  constructor
  · intro h
    obtain ⟨a, e, i, r, tt⟩ := t
    dsimp only at h
    subst h
    rfl
  · intro h
    unfold TokenResponse.parse at h
    split at h
    · split at h
      · cases h
        assumption
      · cases h
    · cases h

/-- C3 witness. -/
theorem tokenResponse_roundtrip_witness :
    (TokenResponse.parse (TokenResponse.toJson
        { access_token := "at", expires_in := 3600, id_token := "idt",
          refresh_token := "rt", token_type := "bearer" }) =
      some { access_token := "at", expires_in := 3600, id_token := "idt",
             refresh_token := "rt", token_type := "bearer" })
    ∧ (TokenResponse.mk "at" 3600 "idt" "rt" "bearer").token_type = "bearer" := by
  constructor
  · exact (tokenResponse_roundtrip
      { access_token := "at", expires_in := 3600, id_token := "idt",
        refresh_token := "rt", token_type := "bearer" } []
      (TokenResponse.mk "x" 0 "x" "x" "x")).1 rfl
  · exact (tokenResponse_roundtrip (TokenResponse.mk "x" 0 "x" "x" "x")
      (TokenResponse.toJson
        { access_token := "at", expires_in := 3600, id_token := "idt",
          refresh_token := "rt", token_type := "bearer" })
      (TokenResponse.mk "at" 3600 "idt" "rt" "bearer")).2 (by decide)

/-- C4 (amended): loading AppleSignInConfig with any required field
absent from the environment fails with an error naming every missing
field, and loading with all required fields present succeeds — even when
a present value is the empty string, since the source's plain str fields
accept it. -/
theorem appleSignInConfig_load_missing (env : List (String × String)) :
    (AppleSignInConfig.missingRequired env = [] →
      ∃ c, AppleSignInConfig.load env = .ok c)
    ∧ (AppleSignInConfig.missingRequired env ≠ [] →
      AppleSignInConfig.load env = .error (AppleSignInConfig.missingRequired env)) := by
  cases h1 : env.lookup "SIWA_CLIENT_ID" <;>
  cases h2 : env.lookup "SIWA_TEAM_ID" <;>
  cases h3 : env.lookup "SIWA_KEY_ID" <;>
  cases h4 : env.lookup "SIWA_PRIVATE_KEY" <;>
  cases h5 : env.lookup "SIWA_REDIRECT_URI" <;>
    simp [AppleSignInConfig.load, AppleSignInConfig.missingRequired, h1, h2, h3, h4, h5]

/-- C4 witness: with SIWA_CLIENT_ID absent the load errors naming
client_id; with all five required entries present it succeeds. -/
theorem appleSignInConfig_load_missing_witness :
    (AppleSignInConfig.load
      [("SIWA_TEAM_ID", "T"), ("SIWA_KEY_ID", "K"),
       ("SIWA_PRIVATE_KEY", "P"), ("SIWA_REDIRECT_URI", "R")] =
      .error (AppleSignInConfig.missingRequired
        [("SIWA_TEAM_ID", "T"), ("SIWA_KEY_ID", "K"),
         ("SIWA_PRIVATE_KEY", "P"), ("SIWA_REDIRECT_URI", "R")]))
    ∧ (∃ c, AppleSignInConfig.load
      [("SIWA_CLIENT_ID", "C"), ("SIWA_TEAM_ID", "T"), ("SIWA_KEY_ID", "K"),
       ("SIWA_PRIVATE_KEY", "P"), ("SIWA_REDIRECT_URI", "R")] = .ok c) :=
  ⟨(appleSignInConfig_load_missing
      [("SIWA_TEAM_ID", "T"), ("SIWA_KEY_ID", "K"),
       ("SIWA_PRIVATE_KEY", "P"), ("SIWA_REDIRECT_URI", "R")]).2 (by decide),
   (appleSignInConfig_load_missing
      [("SIWA_CLIENT_ID", "C"), ("SIWA_TEAM_ID", "T"), ("SIWA_KEY_ID", "K"),
       ("SIWA_PRIVATE_KEY", "P"), ("SIWA_REDIRECT_URI", "R")]).1 (by decide)⟩

/-- C4 (counterexample): the claim says a required field that is present
but empty makes loading fail, but an environment whose SIWA_CLIENT_ID
entry holds the empty string loads successfully, with client_id = "". -/
theorem appleSignInConfig_accepts_empty_value :
    AppleSignInConfig.load
      [("SIWA_CLIENT_ID", ""), ("SIWA_TEAM_ID", "T"), ("SIWA_KEY_ID", "K"),
       ("SIWA_PRIVATE_KEY", "P"), ("SIWA_REDIRECT_URI", "R")] =
      .ok { client_id := "", team_id := "T", key_id := "K", private_key := "P",
            redirect_uri := "R" } := by
  rfl

/-- C5: loading from an environment holding exactly the five required
entries yields scope "email name", response_mode "form_post",
response_type "code id_token", and state none. -/
theorem appleSignInConfig_defaults (ci ti ki pk ru : String) :
    AppleSignInConfig.load
      [("SIWA_CLIENT_ID", ci), ("SIWA_TEAM_ID", ti), ("SIWA_KEY_ID", ki),
       ("SIWA_PRIVATE_KEY", pk), ("SIWA_REDIRECT_URI", ru)] =
      .ok { client_id := ci, team_id := ti, key_id := ki, private_key := pk,
            redirect_uri := ru, scope := "email name", response_mode := "form_post",
            response_type := "code id_token", state := none } := by
  rfl

/-- C6 (amended): IdentityToken parsing enforces no relation between iat
and exp: success is unchanged under replacing iat and exp by any values
whatsoever, including iat greater than or equal to exp. -/
theorem identityToken_parse_ignores_iat_exp (i : IdentityTokenInput) (a b : Int) :
    (IdentityToken.parse { i with iat := a, exp := b }).isSome =
      (IdentityToken.parse i).isSome := by
  cases h : i.real_user_status with
  | none => simp [IdentityToken.parse, h]
  | some r =>
    cases ho : ASUserDetectionStatusEnum.ofInt r <;>
      simp [IdentityToken.parse, h, ho]

/-- C6 (counterexample): the claim says construction with iat greater
than or equal to exp fails, but parsing succeeds on an input with iat = 10
and exp = 3. -/
theorem identityToken_accepts_iat_ge_exp :
    (IdentityToken.parse
      { iss := "https://appleid.apple.com", sub := "u1", aud := "com.example.app",
        iat := 10, exp := 3 }).isSome = true ∧ ¬ ((10 : Int) < 3) := by
  refine ⟨rfl, by decide⟩

/-- C7 (amended): JWKSet construction accepts every list of keys
unchanged; no uniqueness condition on kid values is enforced. -/
theorem jwkset_parse_accepts_any_list (ks : List Keys) :
    JWKSet.parse ks = some { keys := ks } := rfl

/-- C7 (counterexample): the claim says two keys sharing a kid do not
form a valid JWKSet, but a list holding two distinct keys with the same
kid parses successfully, and the resulting kid list has a duplicate. -/
theorem jwkset_accepts_duplicate_kid :
    ∃ s, JWKSet.parse
      [{ alg := "RS256", e := "AQAB", kid := "K1", kty := "RSA", n := "n1", use := "sig" },
       { alg := "RS256", e := "AQAB", kid := "K1", kty := "RSA", n := "n2", use := "sig" }] =
      some s ∧ ¬ (s.keys.map Keys.kid).Nodup := by
  refine ⟨_, rfl, by decide⟩

/-- C8: the claim matches the Keys docstring (kty must be set to "RSA"),
but the code declares kty as a plain unvalidated str: a Keys value with
kty = "EC" is constructed successfully. -/
theorem keys_accepts_non_rsa_kty :
    Keys.parse "RS256" "AQAB" "key1" "EC" "mod" "sig" =
      some { alg := "RS256", e := "AQAB", kid := "key1", kty := "EC",
             n := "mod", use := "sig" }
    ∧ ("EC" : String) ≠ "RSA" := by
  refine ⟨rfl, by decide⟩

/-- C9: in every successfully parsed IdentityToken, each of
email_verified and is_private_email is either absent or a boolean, never
a string, whatever the raw input held. -/
theorem identityToken_bool_fields_never_string (i : IdentityTokenInput)
    (t : IdentityToken) (h : IdentityToken.parse i = some t) :
    (t.email_verified = none ∨ ∃ b, t.email_verified = some (.bool b))
    ∧ (t.is_private_email = none ∨ ∃ b, t.is_private_email = some (.bool b)) := by
  unfold IdentityToken.parse at h
  have hev : t.email_verified = i.email_verified.map IdentityToken.str_to_bool ∧
      t.is_private_email = i.is_private_email.map IdentityToken.str_to_bool := by
    split at h
    · split at h
      · cases h
        exact ⟨rfl, rfl⟩
      · cases h
    · cases h
      exact ⟨rfl, rfl⟩
  rw [hev.1, hev.2]
  exact ⟨map_str_to_bool_not_str _, map_str_to_bool_not_str _⟩

/-- C9 witness: a concrete parse whose raw email_verified is the string
"True" and raw is_private_email is the string "no" yields boolean-or-none
fields. -/
theorem identityToken_bool_fields_never_string_witness :
    ((IdentityToken.mk "iss" "sub" "aud" 0 1 none none none
        (some (.bool true)) (some (.bool false)) none none).email_verified = none ∨
      ∃ b, (IdentityToken.mk "iss" "sub" "aud" 0 1 none none none
        (some (.bool true)) (some (.bool false)) none none).email_verified =
          some (.bool b))
    ∧ ((IdentityToken.mk "iss" "sub" "aud" 0 1 none none none
        (some (.bool true)) (some (.bool false)) none none).is_private_email = none ∨
      ∃ b, (IdentityToken.mk "iss" "sub" "aud" 0 1 none none none
        (some (.bool true)) (some (.bool false)) none none).is_private_email =
          some (.bool b)) :=
  identityToken_bool_fields_never_string
    (IdentityTokenInput.mk "iss" "sub" "aud" 0 1 none none none
      (some (.str "True")) (some (.str "no")) none none)
    (IdentityToken.mk "iss" "sub" "aud" 0 1 none none none
      (some (.bool true)) (some (.bool false)) none none)
    (by decide)

/-- C10: parsing an input that supplies only the five required fields
succeeds, and every optional field of the result is none. -/
theorem identityToken_required_only_defaults (iss sub aud : String) (iat exp : Int) :
    IdentityToken.parse { iss := iss, sub := sub, aud := aud, iat := iat, exp := exp } =
      some { iss := iss, sub := sub, aud := aud, iat := iat, exp := exp,
             nonce := none, nonce_supported := none, email := none,
             email_verified := none, is_private_email := none,
             real_user_status := none, transfer_sub := none } := rfl

end Eden
